import Mathlib

/-!
Shallow embedding of
`src/vs/editor/contrib/inlineCompletions/browser/view/inlineEdits/inlineEditsViews/inlineEditsLongDistanceHint.ts`
(the `InlineEditsLongDistanceHint` widget) and proofs about its derived
observables and layout computations.

TypeScript numbers are modelled as `Int`.  Observables are modelled by
passing their current values (or, for the one cached observable, the list
of its historically observed values) as explicit arguments.  Fallible
reads (non-null assertions, indexing) are modelled with `Option`.
-/

set_option autoImplicit false

namespace LongDistanceHint

/-- Modelled from the spec: a position in a text model (line number and
column), from the repository's core `Position` class, which is outside
`src/`. -/
structure Position where
  lineNumber : Int
  column : Int
deriving DecidableEq, Repr

/-- Modelled from the spec: a range in a text model with inclusive start
and end line/column, from the repository's core `Range` class, which is
outside `src/`. -/
structure Range where
  startLineNumber : Int
  startColumn : Int
  endLineNumber : Int
  endColumn : Int
deriving DecidableEq, Repr

/-- Modelled from the spec: a line range `[startLineNumber,
endLineNumberExclusive)`, from the repository's core `LineRange` class,
which is outside `src/`. -/
structure LineRange where
  startLineNumber : Int
  endLineNumberExclusive : Int
deriving DecidableEq, Repr

def LineRange.ofLength (startLineNumber length : Int) : LineRange :=
  ⟨startLineNumber, startLineNumber + length⟩

def LineRange.contains (r : LineRange) (lineNumber : Int) : Bool :=
  r.startLineNumber ≤ lineNumber && lineNumber < r.endLineNumberExclusive

/-- Modelled from the spec: an offset range `[start, endExclusive)`, from
the repository's core `OffsetRange` class, which is outside `src/`. -/
structure OffsetRange where
  start : Int
  endExclusive : Int
deriving DecidableEq, Repr

def OffsetRange.length (r : OffsetRange) : Int :=
  r.endExclusive - r.start

/-- Modelled from the spec: an axis-aligned rectangle, from the
repository's core `Rect` class, which is outside `src/`. -/
structure Rect where
  left : Int
  top : Int
  right : Int
  bottom : Int
deriving DecidableEq, Repr

def Rect.fromLeftTopWidthHeight (left top width height : Int) : Rect :=
  ⟨left, top, left + width, top + height⟩

def Rect.withMargin (r : Rect) (margin : Int) : Rect :=
  ⟨r.left - margin, r.top - margin, r.right + margin, r.bottom + margin⟩

def Rect.withMargin4 (r : Rect) (top right bottom left : Int) : Rect :=
  ⟨r.left - left, r.top - top, r.right + right, r.bottom + bottom⟩

def Rect.translateX (r : Rect) (delta : Int) : Rect :=
  ⟨r.left + delta, r.top, r.right + delta, r.bottom⟩

def Rect.width (r : Rect) : Int := r.right - r.left

def Rect.height (r : Rect) : Int := r.bottom - r.top

/-- Modelled from the spec: a finer-grained sub-range change pairing an
original character range with its modified counterpart, from the
repository's `RangeMapping` class, which is outside `src/`. -/
structure RangeMapping where
  originalRange : Range
  modifiedRange : Range
deriving DecidableEq, Repr

/-- Modelled from the spec: a line-range-mapping diff entry, pairing an
original line range with its modified counterpart and optionally carrying
inner sub-range changes, from the repository's `DetailedLineRangeMapping`
class, which is outside `src/`. -/
structure DetailedLineRangeMapping where
  original : LineRange
  modified : LineRange
  innerChanges : Option (List RangeMapping)
deriving DecidableEq, Repr

/-- Modelled from the spec: the line contents of a line edit (its new
lines), from the repository's `LineEdit` class, which is outside `src/`. -/
structure LineEdit where
  newLines : List String
deriving DecidableEq, Repr

/-- Modelled from the spec: an edit descriptor carrying original and
modified line ranges, a display range and line contents, from the
repository's `InlineEditWithChanges` class, which is outside `src/`.  Only
the fields this file reads are modelled. -/
structure InlineEditWithChanges where
  originalLineRange : LineRange
  modifiedLineRange : LineRange
  displayRange : LineRange
  lineEdit : LineEdit
deriving DecidableEq, Repr

/-- The `ILongDistanceHint` interface of the source file: a hint location
given by a line number. -/
structure ILongDistanceHint where
  lineNumber : Int
deriving DecidableEq, Repr

/-- The `ILongDistanceViewState` interface of the source file. -/
structure ILongDistanceViewState where
  hint : ILongDistanceHint
  newTextLineCount : Int
  edit : InlineEditWithChanges
  diff : List DetailedLineRangeMapping
deriving DecidableEq, Repr

/-! Constants of the source file. -/

def BORDER_WIDTH : Int := 1
def WIDGET_SEPARATOR_WIDTH : Int := 1
def BORDER_RADIUS : Int := 4
def ORIGINAL_END_PADDING : Int := 20
def MODIFIED_END_PADDING : Int := 12

/-- Number.MAX_SAFE_INTEGER of JavaScript. -/
def MAX_SAFE_INTEGER : Int := 9007199254740991

/-- The `_display` derived observable: `!!this._viewState.read(reader) ?
'block' : 'none'`. -/
def _display (viewState : Option ILongDistanceViewState) : String :=
  if viewState.isSome then "block" else "none"

/-- The root view element's `style.display` binding (the `display:
this._display` entry of the `_view` div). -/
def viewRootDisplayStyle (viewState : Option ILongDistanceViewState) : String :=
  _display viewState

/-- The observable side effects the widget performs on the DOM and on the
preview editor. -/
inductive RenderAction where
  | setRootDisplay (value : String)
  | setHiddenAreas (areas : List Range)
  | layoutPreview (width height : Int)
  | setWidgetTop (value : Int)
  | setWidgetLeft (value : Int)
  | setWidgetWidth (value : Int)
  | setPreviewScrollLeft (value : Int)
deriving DecidableEq, Repr

/-- The hidden areas computed by `_updatePreviewEditor`:
`range = viewState.edit.originalLineRange`; lines before
`range.startLineNumber` and lines from
`range.startLineNumber + viewState.newTextLineCount` on are hidden. -/
def computeHiddenAreas (previewLineCount : Int) (viewState : ILongDistanceViewState) : List Range :=
  (if viewState.edit.originalLineRange.startLineNumber > 1 then
    [Range.mk 1 1 (viewState.edit.originalLineRange.startLineNumber - 1) 1]
  else []) ++
  (if viewState.edit.originalLineRange.startLineNumber + viewState.newTextLineCount < previewLineCount + 1 then
    [Range.mk (viewState.edit.originalLineRange.startLineNumber + viewState.newTextLineCount) 1 (previewLineCount + 1) 1]
  else [])

/-- The actions of the `_updatePreviewEditor` derived: it always writes the
derived display style to the root view element, and only for a defined view
state does it additionally set the hidden areas of the preview editor. -/
def updatePreviewEditorActions (previewLineCount : Int) (viewState : Option ILongDistanceViewState) : List RenderAction :=
  let actions := [RenderAction.setRootDisplay (_display viewState)]
  match viewState with
  | none => actions
  | some vs => actions ++ [RenderAction.setHiddenAreas (computeHiddenAreas previewLineCount vs)]

/-- A hidden-area range hides every line from its start line to its end
line (inclusive). -/
def rangeCoversLine (r : Range) (lineNumber : Int) : Bool :=
  r.startLineNumber ≤ lineNumber && lineNumber ≤ r.endLineNumber

def lineIsHidden (areas : List Range) (lineNumber : Int) : Bool :=
  areas.any (fun r => rangeCoversLine r lineNumber)

/-- The derived observable handed to `InlineEditsGutterIndicator`:
`LineRange.ofLength(this._viewState.read(reader)!.diff[0].modified.startLineNumber, 1)`.
The non-null assertion on the view state and the unguarded `diff[0]` are
fallible reads, modelled with `Option`: `none` means the read fails. -/
def gutterIndicatorLineRange (viewState : Option ILongDistanceViewState) : Option LineRange :=
  match viewState with
  | none => none
  | some vs =>
    match vs.diff with
    | [] => none
    | d :: _ => some (LineRange.ofLength d.modified.startLineNumber 1)

set_option linter.unusedVariables false in
/-- The local function `getHorizontalContentRangeInPreviewEditorToShow`.
Its first statement returns `new OffsetRange(55, 400)`; the second return
statement (`new OffsetRange(0, editor.getContentWidth())`) is unreachable
dead code, so the diff argument is never consulted. -/
def getHorizontalContentRangeInPreviewEditorToShow (diff : List DetailedLineRangeMapping) : OffsetRange :=
  OffsetRange.mk 55 400

/-- The `_hintTextPosition` derived: the hint line at column
`Number.MAX_SAFE_INTEGER`, or `null` for an undefined view state. -/
def _hintTextPosition (viewState : Option ILongDistanceViewState) : Option Position :=
  viewState.map (fun vs => Position.mk vs.hint.lineNumber MAX_SAFE_INTEGER)

/-- The step function of the `derivedObservableWithCache` inside
`_editorMaxContentWidthInRange`: `Math.max(maxWidth, lastValue ?? 0)`. -/
def maxWidthCacheStep (lastValue : Option Int) (maxWidth : Int) : Int :=
  max maxWidth (lastValue.getD 0)

/-- The value of `_editorMaxContentWidthInRange` after the cached derived
has observed the widths `observedWidths` (in order) since its last reset;
the cache starts with no last value. -/
def _editorMaxContentWidthInRange (observedWidths : List Int) : Int :=
  (observedWidths.foldl (fun acc w => some (maxWidthCacheStep acc w)) (none : Option Int)).getD 0

/-- The current values of every observable input the layout pipeline can
read: the view state, the host editor's scroll offset and content-left
layout metric, the preview editor's per-line line height, the observed
pixel position of the hint text position, the host cursor position, and
the resolved original-background theme color. -/
structure LayoutInputs where
  viewState : Option ILongDistanceViewState
  scrollLeft : Int
  contentLeft : Int
  lineHeightForLine : Int → Int
  hintTopLeft : Option (Int × Int)
  cursorPosition : Option Position
  themeOriginalBackground : Int

/-- The record returned by `_previewEditorLayoutInfo`. -/
structure PreviewEditorLayoutInfo where
  codeEditorRect : Rect
  codeScrollLeft : Int
  contentLeft : Int
  widgetRect : Rect
  codeEditorRectWithPadding : Rect
  desiredPreviewEditorScrollLeft : Int
  previewEditorWidth : Int
deriving DecidableEq, Repr

/-- The `_previewEditorLayoutInfo` derived, line by line from the source:
null for an undefined view state or an unobserved hint position; otherwise
the code editor rectangle is built from the hint's observed top-left, the
host content-left and fixed margins, and the widget rectangle wraps it. -/
def _previewEditorLayoutInfo (i : LayoutInputs) : Option PreviewEditorLayoutInfo :=
  match i.viewState with
  | none => none
  | some viewState =>
    let horizontalScrollOffset := i.scrollLeft
    let previewEditorHeight := i.lineHeightForLine viewState.edit.modifiedLineRange.startLineNumber
    let h := getHorizontalContentRangeInPreviewEditorToShow viewState.diff
    let previewEditorWidth := h.length
    match i.hintTopLeft with
    | none => none
    | some hintTopLeft =>
      let margin := 10
      let codeEditorRect :=
        ((Rect.fromLeftTopWidthHeight (hintTopLeft.1 + i.contentLeft + margin) hintTopLeft.2
            previewEditorWidth previewEditorHeight).withMargin 5).translateX (5 + 3 + 2)
      let codeEditorRectWithPadding := codeEditorRect.withMargin 3
      let widgetRect := codeEditorRectWithPadding.withMargin4 2 2 20 2
      some {
        codeEditorRect := codeEditorRect
        codeScrollLeft := horizontalScrollOffset
        contentLeft := i.contentLeft
        widgetRect := widgetRect
        codeEditorRectWithPadding := codeEditorRectWithPadding
        desiredPreviewEditorScrollLeft := h.start
        previewEditorWidth := previewEditorWidth
      }

/-- The geometry named by the spec: position, width, height and scroll
offset of the preview editor. -/
structure Geometry where
  codeEditorRect : Rect
  widgetRect : Rect
  previewEditorWidth : Int
  desiredPreviewEditorScrollLeft : Int
deriving DecidableEq, Repr

def geometryOf : Option PreviewEditorLayoutInfo → Option Geometry :=
  Option.map (fun li =>
    Geometry.mk li.codeEditorRect li.widgetRect li.previewEditorWidth li.desiredPreviewEditorScrollLeft)

/-- The actions of the first `autorun`: for a null layout info it does
nothing; otherwise it lays out the preview editor to the code editor
rectangle's size and moves the widget content to the widget rectangle. -/
def layoutAutorunActions (layoutInfo : Option PreviewEditorLayoutInfo) : List RenderAction :=
  match layoutInfo with
  | none => []
  | some li =>
    [RenderAction.layoutPreview li.codeEditorRect.width li.codeEditorRect.height,
     RenderAction.setWidgetTop li.widgetRect.top,
     RenderAction.setWidgetLeft li.widgetRect.left,
     RenderAction.setWidgetWidth li.widgetRect.width]

/-- The actions of the second `autorun`: for a null layout info it does
nothing; otherwise it sets the preview editor's scroll left. -/
def scrollAutorunActions (layoutInfo : Option PreviewEditorLayoutInfo) : List RenderAction :=
  match layoutInfo with
  | none => []
  | some li => [RenderAction.setPreviewScrollLeft li.desiredPreviewEditorScrollLeft]

/-- The inputs read by the static `fitsInsideViewport`.  The externally
computed widths (`maxContentWidthInRange` over the display range, and
`getContentRenderWidth` of each new line) are inputs, matching the source,
which delegates them to the editor. -/
structure FitsInputs where
  editorWidth : Int
  editorContentLeft : Int
  verticalScrollbarWidth : Int
  minimapLeft : Int
  minimapWidth : Int
  maxOriginalContent : Int
  newLineRenderWidths : List Int
deriving DecidableEq, Repr

/-- The static `fitsInsideViewport`, line by line from the source. -/
def fitsInsideViewport (i : FitsInputs) : Bool :=
  let editorWidth := i.editorWidth
  let editorContentLeft := i.editorContentLeft
  let editorVerticalScrollbar := i.verticalScrollbarWidth
  let minimapWidth := if i.minimapLeft ≠ 0 then i.minimapWidth else 0
  let maxOriginalContent := i.maxOriginalContent
  let maxModifiedContent := i.newLineRenderWidths.foldl (fun mx w => max mx w) 0
  let originalPadding := ORIGINAL_END_PADDING
  let modifiedPadding := MODIFIED_END_PADDING + 2 * BORDER_WIDTH
  decide (maxOriginalContent + maxModifiedContent + originalPadding + modifiedPadding <
    editorWidth - editorContentLeft - editorVerticalScrollbar - minimapWidth)

/-- The claim's reading of `fitsInsideViewport`, written from its words: the
maximum original content width, plus the maximum render width over the new
lines, plus 20, plus 14, is strictly below the editor width minus content
left, vertical scrollbar width and the conditionally counted minimap
width.  The maximum over the new lines is phrased abstractly as an upper
bound attained on the list (or 0 for an empty list). -/
def fitsInsideViewportSpec (i : FitsInputs) : Prop :=
  ∃ m : Int,
    (m = 0 ∨ m ∈ i.newLineRenderWidths) ∧
    (∀ w ∈ i.newLineRenderWidths, w ≤ m) ∧ 0 ≤ m ∧
    i.maxOriginalContent + m + 20 + 14 <
      i.editorWidth - i.editorContentLeft - i.verticalScrollbarWidth -
        (if i.minimapLeft ≠ 0 then i.minimapWidth else 0)

/-- A raw browser mouse event (only its identity matters here). -/
structure BrowserMouseEvent where
  eventId : Int
deriving DecidableEq, Repr

/-- Modelled from the spec: the repository's `StandardMouseEvent` wrapper
around a browser mouse event, which is outside `src/`. -/
structure StandardMouseEvent where
  browserEvent : BrowserMouseEvent
deriving DecidableEq, Repr

/-- An externally visible interaction of the widget. -/
inductive InteractionEvent where
  | onDidClickFired (e : StandardMouseEvent)
deriving DecidableEq, Repr

/-- The `onclick` handler of the widget content: it fires `_onDidClick`
with a `StandardMouseEvent` wrapping the browser event, and does nothing
else. -/
def onclickHandlerEvents (e : BrowserMouseEvent) : List InteractionEvent :=
  [InteractionEvent.onDidClickFired (StandardMouseEvent.mk e)]

/-- The public `isHovered` field: the widget content's
`didMouseMoveDuringHover` state. -/
def isHovered (didMouseMoveDuringHover : Bool) : Bool :=
  didMouseMoveDuringHover

/-! Concrete sample values used by witnesses and counterexamples. -/

def sampleMapping : DetailedLineRangeMapping :=
  { original := LineRange.mk 3 4
    modified := LineRange.mk 3 4
    innerChanges := some [] }

def sampleEdit : InlineEditWithChanges :=
  { originalLineRange := LineRange.mk 2 4
    modifiedLineRange := LineRange.mk 3 4
    displayRange := LineRange.mk 2 5
    lineEdit := LineEdit.mk ["const x = 1;"] }

def sampleViewState : ILongDistanceViewState :=
  { hint := ILongDistanceHint.mk 5
    newTextLineCount := 3
    edit := sampleEdit
    diff := [sampleMapping] }

def sampleViewStateEmptyDiff : ILongDistanceViewState :=
  { sampleViewState with diff := [] }

def sampleLayoutInputs : LayoutInputs :=
  { viewState := some sampleViewState
    scrollLeft := 0
    contentLeft := 60
    lineHeightForLine := fun _ => 19
    hintTopLeft := some (100, 200)
    cursorPosition := none
    themeOriginalBackground := 0 }

def sampleLayoutInputsNone : LayoutInputs :=
  { sampleLayoutInputs with viewState := none }

/-- A variant of `sampleLayoutInputs` differing in the scroll offset, the
diff list, the cursor position and the theme color, but agreeing on
everything the pixel geometry reads. -/
def sampleLayoutInputsVariant : LayoutInputs :=
  { viewState := some sampleViewStateEmptyDiff
    scrollLeft := 33
    contentLeft := 60
    lineHeightForLine := fun _ => 19
    hintTopLeft := some (100, 200)
    cursorPosition := some (Position.mk 1 1)
    themeOriginalBackground := 7 }

/-- The layout record `_previewEditorLayoutInfo` builds once its two
guards have passed, as a function of the values it actually reads. -/
def layoutInfoCore (contentLeft scrollLeft x y previewEditorHeight : Int) : PreviewEditorLayoutInfo :=
  let h := OffsetRange.mk 55 400
  let previewEditorWidth := h.length
  let codeEditorRect :=
    ((Rect.fromLeftTopWidthHeight (x + contentLeft + 10) y
        previewEditorWidth previewEditorHeight).withMargin 5).translateX (5 + 3 + 2)
  let codeEditorRectWithPadding := codeEditorRect.withMargin 3
  let widgetRect := codeEditorRectWithPadding.withMargin4 2 2 20 2
  { codeEditorRect := codeEditorRect
    codeScrollLeft := scrollLeft
    contentLeft := contentLeft
    widgetRect := widgetRect
    codeEditorRectWithPadding := codeEditorRectWithPadding
    desiredPreviewEditorScrollLeft := h.start
    previewEditorWidth := previewEditorWidth }

/-! Helper lemmas. -/

theorem init_le_foldl_max : ∀ (ws : List Int) (a : Int), a ≤ ws.foldl (fun mx w => max mx w) a
  | [], a => le_refl a
  | w :: ws, a => le_trans (le_max_left a w) (init_le_foldl_max ws (max a w))

theorem le_foldl_max : ∀ (ws : List Int) (a w : Int), w ∈ ws → w ≤ ws.foldl (fun mx w => max mx w) a := by
  intro ws
  induction ws with
  | nil => intro a w hw; cases hw
  | cons x xs ih =>
    intro a w hw
    rcases List.mem_cons.mp hw with h | h
    · subst h
      exact le_trans (le_max_right a w) (init_le_foldl_max xs (max a w))
    · exact ih (max a x) w h

theorem foldl_max_le : ∀ (ws : List Int) (a b : Int), a ≤ b → (∀ w ∈ ws, w ≤ b) →
    ws.foldl (fun mx w => max mx w) a ≤ b := by
  intro ws
  induction ws with
  | nil => intro a b ha _; exact ha
  | cons x xs ih =>
    intro a b ha hub
    exact ih (max a x) b (max_le ha (hub x (List.mem_cons_self x xs))) fun w hw =>
      hub w (List.mem_cons_of_mem x hw)

theorem foldl_max_cases : ∀ (ws : List Int) (a : Int),
    ws.foldl (fun mx w => max mx w) a = a ∨ ws.foldl (fun mx w => max mx w) a ∈ ws := by
  intro ws
  induction ws with
  | nil => intro a; exact Or.inl rfl
  | cons x xs ih =>
    intro a
    rcases ih (max a x) with h | h
    · rcases max_choice a x with hm | hm
      · exact Or.inl (by rw [List.foldl_cons, h, hm])
      · exact Or.inr (by rw [List.foldl_cons, h, hm]; exact List.mem_cons_self x xs)
    · exact Or.inr (List.mem_cons_of_mem x h)

theorem editorMaxContentWidth_eq_foldl_aux : ∀ (ws : List Int) (a : Int),
    (ws.foldl (fun acc w => some (maxWidthCacheStep acc w)) (some a)).getD 0 =
      ws.foldl (fun mx w => max mx w) a := by
  intro ws
  induction ws with
  | nil => intro a; rfl
  | cons x xs ih =>
    intro a
    show (xs.foldl (fun acc w => some (maxWidthCacheStep acc w)) (some (max x a))).getD 0 =
      xs.foldl (fun mx w => max mx w) (max a x)
    rw [ih (max x a), max_comm x a]

theorem editorMaxContentWidth_eq_foldl : ∀ (ws : List Int),
    _editorMaxContentWidthInRange ws = ws.foldl (fun mx w => max mx w) 0 := by
  intro ws
  cases ws with
  | nil => rfl
  | cons x xs =>
    show (xs.foldl (fun acc w => some (maxWidthCacheStep acc w)) (some (max x 0))).getD 0 =
      xs.foldl (fun mx w => max mx w) (max 0 x)
    rw [editorMaxContentWidth_eq_foldl_aux xs (max x 0), max_comm x 0]

theorem layout_of_viewState_none : ∀ (i : LayoutInputs), i.viewState = none →
    _previewEditorLayoutInfo i = none := by
  intro i h
  unfold _previewEditorLayoutInfo
  rw [h]

theorem layout_of_hint_none : ∀ (i : LayoutInputs) (vs : ILongDistanceViewState),
    i.viewState = some vs → i.hintTopLeft = none → _previewEditorLayoutInfo i = none := by
  intro i vs hvs hht
  unfold _previewEditorLayoutInfo
  rw [hvs, hht]

theorem previewEditorLayoutInfo_eval : ∀ (i : LayoutInputs) (vs : ILongDistanceViewState) (x y : Int),
    i.viewState = some vs → i.hintTopLeft = some (x, y) →
    _previewEditorLayoutInfo i = some (layoutInfoCore i.contentLeft i.scrollLeft x y
      (i.lineHeightForLine vs.edit.modifiedLineRange.startLineNumber)) := by
  intro i vs x y hvs hht
  unfold _previewEditorLayoutInfo
  rw [hvs, hht]
  rfl

/-- C1: for every value of the view-state observable, an undefined view
state hides the widget: the `_display` derived equals `'none'`, that value
is what the root view element's display style is bound to, and the only
rendering action taken is writing that display style — the hidden-area
update is skipped, the layout info is null and both layout autoruns do
nothing.  A defined view state yields display `'block'`. -/
theorem display_none_iff_viewstate_undefined :
    ∀ (previewLineCount : Int) (i : LayoutInputs),
      (i.viewState = none →
        _display i.viewState = "none" ∧
        viewRootDisplayStyle i.viewState = "none" ∧
        updatePreviewEditorActions previewLineCount i.viewState =
          [RenderAction.setRootDisplay "none"] ∧
        _previewEditorLayoutInfo i = none ∧
        layoutAutorunActions (_previewEditorLayoutInfo i) = [] ∧
        scrollAutorunActions (_previewEditorLayoutInfo i) = []) ∧
      (∀ vs, i.viewState = some vs →
        _display i.viewState = "block" ∧
        viewRootDisplayStyle i.viewState = "block") := by
  intro previewLineCount i
  constructor
  · intro h
    have hl : _previewEditorLayoutInfo i = none := layout_of_viewState_none i h
    refine ⟨?_, ?_, ?_, hl, ?_, ?_⟩
    · rw [h]; rfl
    · rw [h]; rfl
    · rw [h]; rfl
    · rw [hl]; rfl
    · rw [hl]; rfl
  · intro vs h
    rw [h]
    exact ⟨rfl, rfl⟩

/-- Witness for C1 at a concrete undefined view state. -/
theorem display_none_iff_viewstate_undefined_witness :
    _display (none : Option ILongDistanceViewState) = "none" ∧
    updatePreviewEditorActions 10 (none : Option ILongDistanceViewState) =
      [RenderAction.setRootDisplay "none"] ∧
    _previewEditorLayoutInfo sampleLayoutInputsNone = none :=
  let h := (display_none_iff_viewstate_undefined 10 sampleLayoutInputsNone).1 rfl
  ⟨h.1, h.2.2.1, h.2.2.2.1⟩

/-- C3: for every defined view state, the hidden areas computed by
`_updatePreviewEditor` hide exactly the preview-model lines outside the
window of `newTextLineCount` lines starting at
`edit.originalLineRange.startLineNumber`: a model line is covered by some
hidden area if and only if it lies outside that window. -/
theorem hiddenAreas_hide_exactly_outside_window :
    ∀ (vs : ILongDistanceViewState) (previewLineCount lineNumber : Int),
      1 ≤ vs.edit.originalLineRange.startLineNumber →
      0 ≤ vs.newTextLineCount →
      1 ≤ lineNumber → lineNumber ≤ previewLineCount →
      (lineIsHidden (computeHiddenAreas previewLineCount vs) lineNumber = true ↔
        ¬ (vs.edit.originalLineRange.startLineNumber ≤ lineNumber ∧
          lineNumber < vs.edit.originalLineRange.startLineNumber + vs.newTextLineCount)) := by
  intro vs previewLineCount lineNumber hstart hcount h1 h2
  unfold lineIsHidden computeHiddenAreas rangeCoversLine
  split_ifs with hA hB hB <;>
    simp only [List.any_append, List.any_cons, List.any_nil, List.nil_append, List.append_nil,
      Bool.or_false, Bool.false_or, Bool.or_eq_true, Bool.and_eq_true, decide_eq_true_eq,
      Bool.false_eq_true, false_iff, not_and, not_lt, not_le] <;>
    omega

/-- Witness for C3: with the sample view state (window of 3 lines starting
at line 2) in a 10-line preview model, line 1 is hidden and line 2 is
not. -/
theorem hiddenAreas_hide_exactly_outside_window_witness :
    lineIsHidden (computeHiddenAreas 10 sampleViewState) 1 = true :=
  (hiddenAreas_hide_exactly_outside_window sampleViewState 10 1 (by decide) (by decide)
    (by decide) (by decide)).mpr (by decide)

/-- C4 counterexample: the derived line range handed to the gutter
indicator is not total — the fallible reads
`this._viewState.read(reader)!.diff[0]` fail (yield no line range) both
for an undefined view state and for a defined view state with an empty
diff list. -/
theorem gutterIndicatorLineRange_not_total :
    gutterIndicatorLineRange none = none ∧
    gutterIndicatorLineRange (some sampleViewStateEmptyDiff) = none :=
  ⟨rfl, rfl⟩

/-- C4 as amended: the gutter-indicator line range derivation is partial,
not total — it yields a line range exactly when the view state is defined
and its diff list is nonempty, in which case the range is the one-line
range at the first diff entry's modified start line. -/
theorem gutterIndicatorLineRange_defined_iff :
    ∀ (viewState : Option ILongDistanceViewState),
      ((gutterIndicatorLineRange viewState).isSome = true ↔
        ∃ vs, viewState = some vs ∧ vs.diff ≠ []) ∧
      (∀ vs d rest, viewState = some vs → vs.diff = d :: rest →
        gutterIndicatorLineRange viewState =
          some (LineRange.ofLength d.modified.startLineNumber 1)) := by
  intro viewState
  constructor
  · cases viewState with
    | none => simp [gutterIndicatorLineRange]
    | some vs =>
      cases h : vs.diff with
      | nil => simp [gutterIndicatorLineRange, h]
      | cons d rest => simp [gutterIndicatorLineRange, h]
  · intro vs d rest h1 h2
    subst h1
    simp [gutterIndicatorLineRange, h2]

/-- Witness for C4's amended theorem at the sample view state, whose diff
list holds one entry with modified start line 3. -/
theorem gutterIndicatorLineRange_defined_iff_witness :
    gutterIndicatorLineRange (some sampleViewState) = some (LineRange.ofLength 3 1) :=
  (gutterIndicatorLineRange_defined_iff (some sampleViewState)).2 sampleViewState sampleMapping [] rfl rfl

/-- C5 counterexample: `_editorMaxContentWidthInRange` is not a function
of the current values of its inputs alone.  Two observation histories
whose current (most recent) observed width is the same 50 produce
different derived values, 100 versus 50, because the cache keeps the
maximum over the whole history. -/
theorem editorMaxContentWidth_depends_on_history :
    ([(100 : Int), 50].getLast? = some 50) ∧ ([(50 : Int)].getLast? = some 50) ∧
    _editorMaxContentWidthInRange [100, 50] = 100 ∧
    _editorMaxContentWidthInRange [50] = 50 := by
  decide

/-- C5 as amended: every derived value except `_editorMaxContentWidthInRange`
is recomputed from current input values, but that observable additionally
depends on the history of observed widths since its last reset: its value
is the maximum width observed so far (0 for the empty history) — an upper
bound of the history that is attained on it or equal to 0. -/
theorem editorMaxContentWidth_is_observed_max :
    ∀ (observedWidths : List Int),
      0 ≤ _editorMaxContentWidthInRange observedWidths ∧
      (∀ w ∈ observedWidths, w ≤ _editorMaxContentWidthInRange observedWidths) ∧
      (_editorMaxContentWidthInRange observedWidths = 0 ∨
        _editorMaxContentWidthInRange observedWidths ∈ observedWidths) := by
  intro ws
  rw [editorMaxContentWidth_eq_foldl]
  exact ⟨init_le_foldl_max ws 0, fun w hw => le_foldl_max ws 0 w hw, foldl_max_cases ws 0⟩

/-- Witness for C5's amended theorem on the concrete history 100, 50. -/
theorem editorMaxContentWidth_is_observed_max_witness :
    (50 : Int) ≤ _editorMaxContentWidthInRange [100, 50] :=
  (editorMaxContentWidth_is_observed_max [100, 50]).2.1 50 (by decide)

/-- C2 counterexample: the claim's cursor-position conjunct is false —
there are no two runs of the layout computation differing only in the
cursor position whose geometry (codeEditorRect, widgetRect,
previewEditorWidth, desiredPreviewEditorScrollLeft) differs, because
`_previewEditorLayoutInfo` never reads the cursor position. -/
theorem geometry_never_differs_by_cursor_alone :
    ¬ ∃ (i j : LayoutInputs),
        i.viewState = j.viewState ∧ i.scrollLeft = j.scrollLeft ∧
        i.contentLeft = j.contentLeft ∧ i.lineHeightForLine = j.lineHeightForLine ∧
        i.hintTopLeft = j.hintTopLeft ∧
        i.themeOriginalBackground = j.themeOriginalBackground ∧
        geometryOf (_previewEditorLayoutInfo i) ≠ geometryOf (_previewEditorLayoutInfo j) := by
  rintro ⟨i, j, h1, h2, h3, h4, h5, h6, hne⟩
  apply hne
  obtain ⟨vs1, sl1, cl1, lh1, ht1, cp1, th1⟩ := i
  obtain ⟨vs2, sl2, cl2, lh2, ht2, cp2, th2⟩ := j
  dsimp only at h1 h2 h3 h4 h5 h6
  subst h1; subst h2; subst h3; subst h4; subst h5; subst h6
  rfl

/-- C2 as amended: the geometry is genuinely sensitive to the host
editor's layout — two runs differing only in the content-left layout
metric produce different geometry — but it is insensitive to the cursor
position, the theme, the host scroll offset and the diff list: any two
runs agreeing on content-left, on the observed hint position, on whether a
view state is present, and on the line height observed for the edit's
modified start line produce identical geometry (the horizontal content
range function ignores the diff and returns the constant range
[55, 400)). -/
theorem geometry_input_dependencies :
    (∃ i j : LayoutInputs,
        i.viewState = j.viewState ∧ i.scrollLeft = j.scrollLeft ∧
        i.lineHeightForLine = j.lineHeightForLine ∧ i.hintTopLeft = j.hintTopLeft ∧
        i.cursorPosition = j.cursorPosition ∧
        i.themeOriginalBackground = j.themeOriginalBackground ∧
        i.contentLeft ≠ j.contentLeft ∧
        geometryOf (_previewEditorLayoutInfo i) ≠ geometryOf (_previewEditorLayoutInfo j)) ∧
    (∀ i j : LayoutInputs,
        i.contentLeft = j.contentLeft →
        i.hintTopLeft = j.hintTopLeft →
        i.viewState.isSome = j.viewState.isSome →
        i.viewState.map (fun vs => i.lineHeightForLine vs.edit.modifiedLineRange.startLineNumber) =
          j.viewState.map (fun vs => j.lineHeightForLine vs.edit.modifiedLineRange.startLineNumber) →
        geometryOf (_previewEditorLayoutInfo i) = geometryOf (_previewEditorLayoutInfo j)) := by
  constructor
  · exact ⟨sampleLayoutInputs, { sampleLayoutInputs with contentLeft := 61 },
      rfl, rfl, rfl, rfl, rfl, rfl, by decide, by decide⟩
  · intro i j hcl hht hsome hmap
    cases hvi : i.viewState with
    | none =>
      cases hvj : j.viewState with
      | none => rw [layout_of_viewState_none i hvi, layout_of_viewState_none j hvj]
      | some vj => rw [hvi, hvj] at hsome; simp at hsome
    | some vi =>
      cases hvj : j.viewState with
      | none => rw [hvi, hvj] at hsome; simp at hsome
      | some vj =>
        have hh : i.lineHeightForLine vi.edit.modifiedLineRange.startLineNumber =
            j.lineHeightForLine vj.edit.modifiedLineRange.startLineNumber := by
          rw [hvi, hvj] at hmap
          simpa using hmap
        cases hhti : i.hintTopLeft with
        | none =>
          have hhtj : j.hintTopLeft = none := by rw [← hht, hhti]
          rw [layout_of_hint_none i vi hvi hhti, layout_of_hint_none j vj hvj hhtj]
        | some p =>
          obtain ⟨x, y⟩ := p
          have hhtj : j.hintTopLeft = some (x, y) := by rw [← hht, hhti]
          rw [previewEditorLayoutInfo_eval i vi x y hvi hhti,
            previewEditorLayoutInfo_eval j vj x y hvj hhtj, hcl, hh]
          simp [geometryOf, layoutInfoCore]

/-- Witness for C2's amended theorem: two concrete runs differing in the
scroll offset, the diff list, the cursor position and the theme color have
identical geometry. -/
theorem geometry_input_dependencies_witness :
    geometryOf (_previewEditorLayoutInfo sampleLayoutInputs) =
      geometryOf (_previewEditorLayoutInfo sampleLayoutInputsVariant) :=
  geometry_input_dependencies.2 sampleLayoutInputs sampleLayoutInputsVariant rfl rfl rfl rfl

/-- C6: for every defined view state the widget is positioned near the
hint marker: the hint text position is the hint's line number at
end-of-line column `Number.MAX_SAFE_INTEGER`, and the code editor
rectangle's top-left is the hint position's observed coordinates plus the
host content-left and the fixed margins (x + contentLeft + 15, y - 5). -/
theorem widget_positioned_near_hint :
    ∀ (i : LayoutInputs) (vs : ILongDistanceViewState) (x y : Int),
      i.viewState = some vs →
      i.hintTopLeft = some (x, y) →
      _hintTextPosition i.viewState = some (Position.mk vs.hint.lineNumber MAX_SAFE_INTEGER) ∧
      ∃ li, _previewEditorLayoutInfo i = some li ∧
        li.codeEditorRect.left = x + i.contentLeft + 15 ∧
        li.codeEditorRect.top = y - 5 := by
  intro i vs x y hvs hht
  refine ⟨by rw [hvs]; rfl,
    layoutInfoCore i.contentLeft i.scrollLeft x y
      (i.lineHeightForLine vs.edit.modifiedLineRange.startLineNumber),
    previewEditorLayoutInfo_eval i vs x y hvs hht, ?_, ?_⟩
  · show x + i.contentLeft + 10 - 5 + (5 + 3 + 2) = x + i.contentLeft + 15
    omega
  · show y - 5 = y - 5
    rfl

/-- Witness for C6 at the sample inputs (hint line 5 observed at pixel
position (100, 200), content-left 60). -/
theorem widget_positioned_near_hint_witness :
    _hintTextPosition (some sampleViewState) = some (Position.mk 5 MAX_SAFE_INTEGER) ∧
    ∃ li, _previewEditorLayoutInfo sampleLayoutInputs = some li ∧
      li.codeEditorRect.left = 100 + 60 + 15 ∧
      li.codeEditorRect.top = 200 - 5 :=
  widget_positioned_near_hint sampleLayoutInputs sampleViewState 100 200 rfl rfl

/-- C7: each invocation of the widget content's `onclick` handler fires
`onDidClick` exactly once, with a `StandardMouseEvent` wrapping the
browser click event and nothing else, and the public `isHovered` equals
the widget content's `didMouseMoveDuringHover` state. -/
theorem click_and_hover_interface :
    ∀ (e : BrowserMouseEvent) (didMouseMoveDuringHover : Bool),
      onclickHandlerEvents e = [InteractionEvent.onDidClickFired (StandardMouseEvent.mk e)] ∧
      (onclickHandlerEvents e).length = 1 ∧
      isHovered didMouseMoveDuringHover = didMouseMoveDuringHover :=
  fun _ _ => ⟨rfl, rfl, rfl⟩

/-- C8: `fitsInsideViewport` returns true exactly when the maximum
original content width plus the maximum render width over the new lines
plus 20 (original end padding) plus 14 (modified end padding 12 plus twice
the border width 1) is strictly below the editor width minus content-left,
vertical scrollbar width, and the minimap width counted only when the
minimap's left position is nonzero. -/
theorem fitsInsideViewport_formula :
    ∀ (i : FitsInputs), fitsInsideViewport i = true ↔ fitsInsideViewportSpec i := by
  intro i
  unfold fitsInsideViewport fitsInsideViewportSpec ORIGINAL_END_PADDING MODIFIED_END_PADDING
    BORDER_WIDTH
  simp only [decide_eq_true_eq]
  constructor
  · intro hlt
    exact ⟨i.newLineRenderWidths.foldl (fun mx w => max mx w) 0,
      foldl_max_cases i.newLineRenderWidths 0,
      fun w hw => le_foldl_max i.newLineRenderWidths 0 w hw,
      init_le_foldl_max i.newLineRenderWidths 0,
      by omega⟩
  · rintro ⟨m, -, hub, hm0, hlt⟩
    have := foldl_max_le i.newLineRenderWidths 0 m hm0 hub
    omega

/-- C9: the view-state value carries exactly the stated shape — a hint
with a line number, a count of newly inserted text lines, an edit
descriptor with original and modified line ranges and line contents, and a
list of detailed line-range-mapping diff entries, each optionally carrying
inner sub-range changes (the option is either absent or a list of range
mappings). -/
theorem viewState_shape :
    ∀ (v : ILongDistanceViewState) (m : DetailedLineRangeMapping)
      (e : InlineEditWithChanges) (h : ILongDistanceHint),
      v = ILongDistanceViewState.mk v.hint v.newTextLineCount v.edit v.diff ∧
      h = ILongDistanceHint.mk h.lineNumber ∧
      e = InlineEditWithChanges.mk e.originalLineRange e.modifiedLineRange e.displayRange
        e.lineEdit ∧
      e.lineEdit = LineEdit.mk e.lineEdit.newLines ∧
      m = DetailedLineRangeMapping.mk m.original m.modified m.innerChanges ∧
      (m.innerChanges = none ∨ ∃ cs, m.innerChanges = some cs) := by
  intro v m e h
  refine ⟨rfl, rfl, rfl, rfl, rfl, ?_⟩
  cases hc : m.innerChanges with
  | none => exact Or.inl rfl
  | some cs => exact Or.inr ⟨cs, rfl⟩

end LongDistanceHint
